import Mathlib

/-!
Verification of the reconciliation core of a declarative SQL-engine
access-control manager (terraform-provider-mssql).  The definitions below are
shallow embeddings of the Go source: the SID codec (`guidToSID` from
internal/mssql/user.go), the permission client commands and catalog lookups
(internal/mssql/permission.go), and the per-resource lifecycle operations
(internal/provider/resource_*.go).  SQL catalog state is modelled as explicit
lists of rows; fallible lookups return `Except`/`Option`.
-/

/-! ## ASCII upper-casing (models Go's `strings.ToUpper` on ASCII input) -/

/-- Upper-case a single character; models Go `strings.ToUpper` per byte for
the ASCII range (permission names and hex digits are ASCII). -/
def charToUpper (c : Char) : Char :=
  if 97 ≤ c.toNat ∧ c.toNat ≤ 122 then Char.ofNat (c.toNat - 32) else c

/-- Upper-case a string, character by character. -/
def strToUpper (s : String) : String := String.mk (s.data.map charToUpper)

/-! ## SID codec (`guidToSID`, internal/mssql/user.go lines 16–45) -/

/-- Error outcomes of `guidToSID`: the explicit length check
(`invalid GUID format`) versus a failure inside Go's `hex.DecodeString`
(`failed to decode GUID`). -/
inductive SIDError where
  | invalidGUIDFormat
  | decodeFailed
deriving DecidableEq, Repr

/-- Numeric value of one hex digit, `none` when the character is not a hex
digit (mirrors the per-byte validation of Go `hex.DecodeString`). -/
def hexDigitVal (c : Char) : Option Nat :=
  if 48 ≤ c.toNat ∧ c.toNat ≤ 57 then some (c.toNat - 48)
  else if 97 ≤ c.toNat ∧ c.toNat ≤ 102 then some (c.toNat - 87)
  else if 65 ≤ c.toNat ∧ c.toNat ≤ 70 then some (c.toNat - 55)
  else none

/-- Decode a hex string (as a character list) to bytes; fails on odd length or
any non-hex character, as Go `hex.DecodeString` does. -/
def hexDecodeList : List Char → Option (List Nat)
  | [] => some []
  | [_] => none
  | c1 :: c2 :: rest =>
    match hexDigitVal c1, hexDigitVal c2, hexDecodeList rest with
    | some h, some l, some bs => some ((16 * h + l) :: bs)
    | _, _, _ => none

/-- Lower-case hex digit for a byte nibble (Go `hex.EncodeToString`). -/
def hexDigitChar (n : Nat) : Char :=
  if n < 10 then Char.ofNat (48 + n) else Char.ofNat (87 + n)

/-- Lower-case hex encoding of a byte list (Go `hex.EncodeToString`). -/
def hexEncodeList : List Nat → List Char
  | [] => []
  | b :: bs => hexDigitChar (b / 16) :: hexDigitChar (b % 16) :: hexEncodeList bs

/-- The in-place byte swaps of `guidToSID`: the simultaneous assignments
`bytes[0..3] = bytes[3..0]`, `bytes[4],bytes[5] = bytes[5],bytes[4]`,
`bytes[6],bytes[7] = bytes[7],bytes[6]`; bytes 8–15 untouched. -/
def guidSwapBytes : List Nat → List Nat
  | b0 :: b1 :: b2 :: b3 :: b4 :: b5 :: b6 :: b7 :: rest =>
    b3 :: b2 :: b1 :: b0 :: b5 :: b4 :: b7 :: b6 :: rest
  | l => l

/-- `guidToSID` (internal/mssql/user.go): strip hyphens (`strings.ReplaceAll`),
require exactly 32 characters, hex-decode, swap the first three GUID fields
to little-endian, re-encode as upper-case hex with a `0x` prefix.
`cleanGUIDOf` is the hyphen-stripping step. -/
def cleanGUIDOf (guid : String) : List Char :=
  guid.data.filter (fun c => c ≠ '-')

/-- `guidToSID` continued: length check, decode, swap, re-encode. -/
def guidToSID (guid : String) : Except SIDError String :=
  let cleanGUID := cleanGUIDOf guid
  if cleanGUID.length ≠ 32 then .error .invalidGUIDFormat
  else
    match hexDecodeList cleanGUID with
    | none => .error .decodeFailed
    | some bytes =>
      .ok (String.mk ('0' :: 'x' :: (hexEncodeList (guidSwapBytes bytes)).map charToUpper))

/-- A well-formed GUID: exactly 32 hex characters once hyphens are removed. -/
def isWellFormedGUID (guid : String) : Bool :=
  (cleanGUIDOf guid).length == 32 && (cleanGUIDOf guid).all (fun c => (hexDigitVal c).isSome)

/-- Spec-level byte reordering (§4.1): reverse bytes 0–3 as one group,
reverse bytes 4–5, reverse bytes 6–7, leave bytes 8–15 unchanged. -/
def guidReorderSpec (bs : List Nat) : List Nat :=
  (bs.take 4).reverse ++ ((bs.drop 4).take 2).reverse ++
    (((bs.drop 4).drop 2).take 2).reverse ++ ((bs.drop 4).drop 4)

/-! ## Permission data model (internal/mssql/permission.go)

The engine catalog is modelled as explicit row lists; `DB_ID()` of the
current database is the catalog's `dbID` field (the engine always returns a
positive database id). -/

/-- A `sys.database_permissions` row of class 0 (database scope), pre-joined
with its grantee principal, as selected by `GetDatabasePermission`. -/
structure DBPermRow where
  PrincipalID : Int
  PrincipalName : String
  PermissionName : String
  StateDesc : String
  WithGrantOption : Bool
deriving DecidableEq, Repr

/-- A `sys.database_permissions` row of class 3 (schema scope), pre-joined
with its grantee principal and schema, as selected by `GetSchemaPermission`. -/
structure SchemaPermRow where
  PrincipalID : Int
  PrincipalName : String
  PermissionName : String
  StateDesc : String
  SchemaName : String
  WithGrantOption : Bool
deriving DecidableEq, Repr

/-- A `sys.schemas` row joined with its owning principal. -/
structure SchemaRow where
  Name : String
  OwnerID : Int
  OwnerName : String
deriving DecidableEq, Repr

/-- A `sys.server_permissions` row of class 100, pre-joined with its grantee
server principal, as selected by `GetServerPermission`. -/
structure ServerPermRow where
  PrincipalID : Int
  PrincipalName : String
  PermissionName : String
  StateDesc : String
  WithGrantOption : Bool
deriving DecidableEq, Repr

/-- `User` (internal/mssql/user.go): a `sys.database_principals` row of type
S/U/E/X with its mapped login. -/
structure User where
  PrincipalID : Int
  Name : String
  DatabaseID : Int
  DefaultSchemaName : String
  UserType : String
  LoginName : String
deriving DecidableEq, Repr

/-- `ServerRole` (a `sys.server_principals` row of type R). -/
structure ServerRole where
  PrincipalID : Int
  Name : String
  OwnerName : String
  IsFixedRole : Bool
deriving DecidableEq, Repr

/-- `DatabaseRole` (a `sys.database_principals` row of type R). -/
structure DatabaseRole where
  PrincipalID : Int
  Name : String
  DatabaseID : Int
  OwnerName : String
  IsFixedRole : Bool
deriving DecidableEq, Repr

/-- The catalog of one database plus the server-level catalogs: the row sets
the client's read queries select from.  `dbID` is the engine's `DB_ID()` for
the database (always positive in the engine). -/
structure Catalog where
  dbID : Int
  dbPermRows : List DBPermRow
  schemaPermRows : List SchemaPermRow
  schemas : List SchemaRow
  serverPermRows : List ServerPermRow
  users : List User
  serverRoles : List ServerRole
  databaseRoles : List DatabaseRole
deriving Repr

/-- `DatabasePermission` as returned to callers (includes `DB_ID()`). -/
structure DatabasePermission where
  PrincipalID : Int
  PrincipalName : String
  PermissionName : String
  StateDesc : String
  DatabaseID : Int
  WithGrantOption : Bool
deriving DecidableEq, Repr

/-- `SchemaPermission` as returned to callers (includes `DB_ID()`; a virtual
ownership-implied grant carries the sentinel `DatabaseID = 0`). -/
structure SchemaPermission where
  PrincipalID : Int
  PrincipalName : String
  PermissionName : String
  StateDesc : String
  SchemaName : String
  DatabaseID : Int
  WithGrantOption : Bool
deriving DecidableEq, Repr

/-- `ServerPermission` as returned to callers. -/
structure ServerPermission where
  PrincipalID : Int
  PrincipalName : String
  PermissionName : String
  StateDesc : String
  WithGrantOption : Bool
deriving DecidableEq, Repr

/-- `GetDatabasePermission` (permission.go lines 34–71): select the class-0
row whose grantee name and (upper-cased) permission name match. -/
def GetDatabasePermission (cat : Catalog) (principalName permission : String) :
    Option DatabasePermission :=
  match cat.dbPermRows.find? (fun r =>
      r.PrincipalName == principalName && r.PermissionName == strToUpper permission) with
  | none => none
  | some r => some ⟨r.PrincipalID, r.PrincipalName, r.PermissionName, r.StateDesc,
      cat.dbID, r.WithGrantOption⟩

/-- The Boolean row predicate of `GetSchemaPermission`'s explicit-grant
query. -/
def schemaPermPred (schemaName principalName permission : String)
    (r : SchemaPermRow) : Bool :=
  r.PrincipalName == principalName && r.PermissionName == strToUpper permission &&
    r.SchemaName == schemaName

/-- The Boolean row predicate of `GetSchemaPermission`'s ownership query. -/
def schemaOwnerPred (schemaName principalName : String) (s : SchemaRow) : Bool :=
  s.Name == schemaName && s.OwnerName == principalName

/-- `GetSchemaPermission` (permission.go lines 163–240): select the class-3
row matching grantee, upper-cased permission and schema; on miss, check
schema ownership and synthesize a virtual grant for the owner
(`StateDesc = "GRANT"`, sentinel `DatabaseID = 0`, grant option true);
otherwise return nothing. -/
def GetSchemaPermission (cat : Catalog) (schemaName principalName permission : String) :
    Option SchemaPermission :=
  match cat.schemaPermRows.find? (schemaPermPred schemaName principalName permission) with
  | some r => some ⟨r.PrincipalID, r.PrincipalName, r.PermissionName, r.StateDesc,
      r.SchemaName, cat.dbID, r.WithGrantOption⟩
  | none =>
    match cat.schemas.find? (schemaOwnerPred schemaName principalName) with
    | some s => some ⟨s.OwnerID, s.OwnerName, strToUpper permission, "GRANT",
        schemaName, 0, true⟩
    | none => none

/-- `GetServerPermission` (permission.go lines 334–365). -/
def GetServerPermission (cat : Catalog) (principalName permission : String) :
    Option ServerPermission :=
  match cat.serverPermRows.find? (fun r =>
      r.PrincipalName == principalName && r.PermissionName == strToUpper permission) with
  | none => none
  | some r => some ⟨r.PrincipalID, r.PrincipalName, r.PermissionName, r.StateDesc,
      r.WithGrantOption⟩

/-- `GetUser` (user.go lines 58–85): select the database principal of type
S/U/E/X with the given name. -/
def GetUser (cat : Catalog) (userName : String) : Option User :=
  cat.users.find? (fun u =>
    u.Name == userName &&
      (u.UserType == "S" || u.UserType == "U" || u.UserType == "E" || u.UserType == "X"))

/-- `GetServerRole` (part_018 lines 675–703): select the server principal of
type R with the given name. -/
def GetServerRole (cat : Catalog) (roleName : String) : Option ServerRole :=
  cat.serverRoles.find? (fun r => r.Name == roleName)

/-- `GetServerRoleByID` (part_018 lines 705–732): select the server principal
of type R with the given principal id — the only lookup the server-role
resource's Read performs. -/
def GetServerRoleByID (cat : Catalog) (principalID : Int) : Option ServerRole :=
  cat.serverRoles.find? (fun r => r.PrincipalID == principalID)

/-- `GetDatabaseRole` (part_018 lines 404–439): select the database principal
of type R with the given name. -/
def GetDatabaseRole (cat : Catalog) (roleName : String) : Option DatabaseRole :=
  cat.databaseRoles.find? (fun r => r.Name == roleName)

/-! ## Native command strings (permission.go, part_018)

Each client mutation builds one SQL command string with `fmt.Sprintf`; the
functions below build the identical strings. -/

/-- The string built by `GrantDatabasePermission` (permission.go 125–138). -/
def GrantDatabasePermissionQuery (principalName permission : String)
    (withGrantOption : Bool) : String :=
  "GRANT " ++ strToUpper permission ++ " TO [" ++ principalName ++ "]" ++
    (if withGrantOption then " WITH GRANT OPTION" else "")

/-- The string built by `RevokeDatabasePermission` (permission.go 140–149). -/
def RevokeDatabasePermissionQuery (principalName permission : String) : String :=
  "REVOKE " ++ strToUpper permission ++ " FROM [" ++ principalName ++ "]"

/-- The string built by `GrantSchemaPermission` (permission.go 297–310). -/
def GrantSchemaPermissionQuery (schemaName principalName permission : String)
    (withGrantOption : Bool) : String :=
  "GRANT " ++ strToUpper permission ++ " ON SCHEMA::[" ++ schemaName ++ "] TO [" ++
    principalName ++ "]" ++ (if withGrantOption then " WITH GRANT OPTION" else "")

/-- The string built by `RevokeSchemaPermission` (permission.go 312–322);
the source always appends `CASCADE`. -/
def RevokeSchemaPermissionQuery (schemaName principalName permission : String) : String :=
  "REVOKE " ++ strToUpper permission ++ " ON SCHEMA::[" ++ schemaName ++ "] FROM [" ++
    principalName ++ "] CASCADE"

/-- The string built by `GrantServerPermission` (permission.go 404–417). -/
def GrantServerPermissionQuery (principalName permission : String)
    (withGrantOption : Bool) : String :=
  "GRANT " ++ strToUpper permission ++ " TO [" ++ principalName ++ "]" ++
    (if withGrantOption then " WITH GRANT OPTION" else "")

/-- The string built by `RevokeServerPermission` (permission.go 419–428). -/
def RevokeServerPermissionQuery (principalName permission : String) : String :=
  "REVOKE " ++ strToUpper permission ++ " FROM [" ++ principalName ++ "]"

/-- The string built by `AddDatabaseRoleMember` (part_018 645–654). -/
def AddDatabaseRoleMemberQuery (roleName memberName : String) : String :=
  "ALTER ROLE [" ++ roleName ++ "] ADD MEMBER [" ++ memberName ++ "]"

/-- The string built by `RemoveDatabaseRoleMember` (part_018 656–664). -/
def RemoveDatabaseRoleMemberQuery (roleName memberName : String) : String :=
  "ALTER ROLE [" ++ roleName ++ "] DROP MEMBER [" ++ memberName ++ "]"

/-! ## Resource lifecycle models (internal/provider/resource_*.go)

Each Read is a pure function of the tracked state and the results of the
client lookups it performs (a lookup result is `Except`-valued: a transport or
engine failure, or an optional entity).  The outcome mirrors the three exits
of the Go code: add an error diagnostic, remove the resource from state, or
write an updated state. -/

/-- Outcome of a Refresh/Read: error diagnostic, removal from tracked state,
or an updated tracked state. -/
inductive ReadOutcome (σ : Type) where
  | error
  | removed
  | ok (st : σ)
deriving DecidableEq, Repr

/-- Decimal digit value, `none` on a non-digit. -/
def decDigitVal (c : Char) : Option Nat :=
  if 48 ≤ c.toNat ∧ c.toNat ≤ 57 then some (c.toNat - 48) else none

/-- Accumulating decimal parse; fails on any non-digit character. -/
def natFromDigitsAux (acc : Nat) : List Char → Option Nat
  | [] => some acc
  | c :: cs =>
    match decDigitVal c with
    | some d => natFromDigitsAux (acc * 10 + d) cs
    | none => none

/-- Parse a non-empty all-digit character list as a natural number. -/
def natFromDigits : List Char → Option Nat
  | [] => none
  | l => natFromDigitsAux 0 l

/-- Go `strconv.Atoi` with the error ignored, as in
`id, _ := strconv.Atoi(data.ID.ValueString())` (part_014 line 105): decimal
integer with optional leading minus; on any parse failure the id is 0. -/
def atoiOrZero (s : String) : Int :=
  match s.data with
  | '-' :: cs => ((natFromDigits cs).map (fun n => -(n : Int))).getD 0
  | cs => ((natFromDigits cs).map (fun n => (n : Int))).getD 0

/-- Tracked state of `mssql_sql_user` (`SQLUserResourceModel`). -/
structure SQLUserResourceModel where
  ID : String
  DatabaseName : String
  Name : String
  LoginName : String
  DefaultSchema : String
  Roles : List String
deriving DecidableEq, Repr

/-- Tracked state of `mssql_server_role` (`ServerRoleResourceModel`). -/
structure ServerRoleResourceModel where
  ID : String
  Name : String
  OwnerName : String
deriving DecidableEq, Repr

/-- Tracked state of `mssql_database_permission`. -/
structure DatabasePermissionResourceModel where
  ID : String
  DatabaseName : String
  PrincipalName : String
  Permission : String
  WithGrantOption : Bool
deriving DecidableEq, Repr

/-- Tracked state of `mssql_schema_permission`. -/
structure SchemaPermissionResourceModel where
  ID : String
  DatabaseName : String
  SchemaName : String
  PrincipalName : String
  Permission : String
  WithGrantOption : Bool
deriving DecidableEq, Repr

/-- Tracked state of `mssql_database_role`. -/
structure DatabaseRoleResourceModel where
  ID : String
  DatabaseName : String
  Name : String
  OwnerName : String
deriving DecidableEq, Repr

/-- `SQLUserResource.Read` (resource_sql_user.go 172–210): always look the
user up by name; an error from either lookup is a diagnostic, an absent user
removes the resource, otherwise state is rewritten with the current
(possibly new) id, default schema, login name and role list. -/
def SQLUserRead (st : SQLUserResourceModel)
    (userRes : Except String (Option User))
    (rolesRes : Except String (List String)) : ReadOutcome SQLUserResourceModel :=
  match userRes with
  | .error _ => .error
  | .ok none => .removed
  | .ok (some user) =>
    match rolesRes with
    | .error _ => .error
    | .ok roles =>
      .ok { st with
        ID := toString user.DatabaseID ++ "/" ++ toString user.PrincipalID
        DefaultSchema := user.DefaultSchemaName
        LoginName := user.LoginName
        Roles := roles }

/-- `ServerRoleResource.Read` (part_014 98–119): look the role up by the
stored principal id only; absence removes the resource, otherwise name and
owner are rewritten (the stored id is left as it was). -/
def ServerRoleRead (st : ServerRoleResourceModel)
    (roleRes : Except String (Option ServerRole)) : ReadOutcome ServerRoleResourceModel :=
  match roleRes with
  | .error _ => .error
  | .ok none => .removed
  | .ok (some role) => .ok { st with Name := role.Name, OwnerName := role.OwnerName }

/-- `DatabasePermissionResource.Read` (resource_database_permission.go
115–135). -/
def DatabasePermissionRead (st : DatabasePermissionResourceModel)
    (res : Except String (Option DatabasePermission)) :
    ReadOutcome DatabasePermissionResourceModel :=
  match res with
  | .error _ => .error
  | .ok none => .removed
  | .ok (some perm) =>
    .ok { st with Permission := perm.PermissionName
                  WithGrantOption := perm.WithGrantOption }

/-- `SchemaPermissionResource.Read` (part_013 117–141): the observed grant
option is written to state only for a real grant (`DatabaseID > 0`); a
virtual owner grant (sentinel `DatabaseID = 0`) leaves the stored value
untouched. -/
def SchemaPermissionRead (st : SchemaPermissionResourceModel)
    (res : Except String (Option SchemaPermission)) :
    ReadOutcome SchemaPermissionResourceModel :=
  match res with
  | .error _ => .error
  | .ok none => .removed
  | .ok (some perm) =>
    .ok { st with WithGrantOption :=
      if perm.DatabaseID > 0 then perm.WithGrantOption else st.WithGrantOption }

/-- `DatabaseRoleResource.Read` (resource_database_role.go 115–134). -/
def DatabaseRoleRead (st : DatabaseRoleResourceModel)
    (res : Except String (Option DatabaseRole)) : ReadOutcome DatabaseRoleResourceModel :=
  match res with
  | .error _ => .error
  | .ok none => .removed
  | .ok (some role) => .ok { st with OwnerName := role.OwnerName }

/-- `Schema` (part_018): a `sys.schemas` row with its owner and `DB_ID()`. -/
structure Schema where
  SchemaID : Int
  Name : String
  OwnerName : String
  DatabaseID : Int
deriving DecidableEq, Repr

/-- `DatabaseRoleMember` (part_018 lines 596–604). -/
structure DatabaseRoleMember where
  RoleID : Int
  RoleName : String
  MemberID : Int
  MemberName : String
  DatabaseID : Int
deriving DecidableEq, Repr

/-- `ServerRoleMember` (part_018 lines 801–808). -/
structure ServerRoleMember where
  RoleID : Int
  RoleName : String
  MemberID : Int
  MemberName : String
deriving DecidableEq, Repr

/-- `SQLLogin` (part_017 lines 13–21). -/
structure SQLLogin where
  PrincipalID : Int
  Name : String
  DefaultDatabaseName : String
  DefaultLanguageName : String
  CheckExpirationEnabled : Bool
  CheckPolicyEnabled : Bool
  IsDisabled : Bool
deriving DecidableEq, Repr

/-- `Database` (internal/mssql/database.go lines 13–16). -/
structure Database where
  ID : Int
  Name : String
deriving DecidableEq, Repr

/-- Tracked state of `mssql_server_permission`. -/
structure ServerPermissionResourceModel where
  ID : String
  PrincipalName : String
  Permission : String
  WithGrantOption : Bool
deriving DecidableEq, Repr

/-- Tracked state of `mssql_schema`. -/
structure SchemaResourceModel where
  ID : String
  DatabaseName : String
  Name : String
  OwnerName : String
deriving DecidableEq, Repr

/-- Tracked state of `mssql_database_role_member`. -/
structure DatabaseRoleMemberResourceModel where
  ID : String
  DatabaseName : String
  RoleName : String
  MemberName : String
deriving DecidableEq, Repr

/-- Tracked state of `mssql_server_role_member`. -/
structure ServerRoleMemberResourceModel where
  ID : String
  RoleName : String
  MemberName : String
deriving DecidableEq, Repr

/-- Tracked state of `mssql_azuread_user`. -/
structure AzureADUserResourceModel where
  ID : String
  DatabaseName : String
  Name : String
  ObjectID : String
  DefaultSchema : String
  Roles : List String
deriving DecidableEq, Repr

/-- Tracked state of `mssql_azuread_service_principal`. -/
structure AzureADServicePrincipalResourceModel where
  ID : String
  DatabaseName : String
  Name : String
  ClientID : String
  DefaultSchema : String
deriving DecidableEq, Repr

/-- Tracked state of `mssql_sql_login`. -/
structure SQLLoginResourceModel where
  ID : String
  Name : String
  Password : String
  DefaultDatabase : String
  DefaultLanguage : String
  CheckExpirationEnabled : Bool
  CheckPolicyEnabled : Bool
  IsDisabled : Bool
deriving DecidableEq, Repr

/-- Tracked state of `mssql_database`. -/
structure DatabaseResourceModel where
  ID : String
  Name : String
deriving DecidableEq, Repr

/-- `ServerPermissionResource.Read` (resource_server_permission.go 103–123). -/
def ServerPermissionRead (st : ServerPermissionResourceModel)
    (res : Except String (Option ServerPermission)) :
    ReadOutcome ServerPermissionResourceModel :=
  match res with
  | .error _ => .error
  | .ok none => .removed
  | .ok (some perm) =>
    .ok { st with Permission := perm.PermissionName
                  WithGrantOption := perm.WithGrantOption }

/-- `SchemaResource.Read` (resource_schema.go 110–129). -/
def SchemaRead (st : SchemaResourceModel)
    (res : Except String (Option Schema)) : ReadOutcome SchemaResourceModel :=
  match res with
  | .error _ => .error
  | .ok none => .removed
  | .ok (some schema) => .ok { st with OwnerName := schema.OwnerName }

/-- `DatabaseRoleMemberResource.Read` (resource_database_role_member.go
107–125): a found membership writes the state back unchanged. -/
def DatabaseRoleMemberRead (st : DatabaseRoleMemberResourceModel)
    (res : Except String (Option DatabaseRoleMember)) :
    ReadOutcome DatabaseRoleMemberResourceModel :=
  match res with
  | .error _ => .error
  | .ok none => .removed
  | .ok (some _) => .ok st

/-- `ServerRoleMemberResource.Read` (resource_database_role_member.go
262–280). -/
def ServerRoleMemberRead (st : ServerRoleMemberResourceModel)
    (res : Except String (Option ServerRoleMember)) :
    ReadOutcome ServerRoleMemberResourceModel :=
  match res with
  | .error _ => .error
  | .ok none => .removed
  | .ok (some _) => .ok st

/-- `AzureADUserResource.Read` (resource_azuread_user.go 161–195): like the
SQL user Read, with the id rewritten to the connection-derived URL form
(`newID`, computed from the client's hostname and port). -/
def AzureADUserRead (st : AzureADUserResourceModel) (newID : String)
    (userRes : Except String (Option User))
    (rolesRes : Except String (List String)) : ReadOutcome AzureADUserResourceModel :=
  match userRes with
  | .error _ => .error
  | .ok none => .removed
  | .ok (some user) =>
    match rolesRes with
    | .error _ => .error
    | .ok roles =>
      .ok { st with ID := newID, DefaultSchema := user.DefaultSchemaName, Roles := roles }

/-- `AzureADServicePrincipalResource.Read` (resource_database_role_member.go
437–456). -/
def AzureADServicePrincipalRead (st : AzureADServicePrincipalResourceModel)
    (res : Except String (Option User)) :
    ReadOutcome AzureADServicePrincipalResourceModel :=
  match res with
  | .error _ => .error
  | .ok none => .removed
  | .ok (some user) => .ok { st with DefaultSchema := user.DefaultSchemaName }

/-- `SQLLoginResource.Read` (resource_sql_login.go 168–213): if the stored id
parses, look up by id (a failure is an error); on miss (or unparsable id)
fall back to lookup by name; a miss on both removes the resource. -/
def SQLLoginRead (st : SQLLoginResourceModel) (idParseOk : Bool)
    (byIDRes byNameRes : Except String (Option SQLLogin)) :
    ReadOutcome SQLLoginResourceModel :=
  match (if idParseOk then byIDRes else .ok none) with
  | .error _ => .error
  | .ok (some login) =>
    .ok { st with ID := toString login.PrincipalID, Name := login.Name,
                  DefaultDatabase := login.DefaultDatabaseName,
                  DefaultLanguage := login.DefaultLanguageName,
                  CheckExpirationEnabled := login.CheckExpirationEnabled,
                  CheckPolicyEnabled := login.CheckPolicyEnabled,
                  IsDisabled := login.IsDisabled }
  | .ok none =>
    match byNameRes with
    | .error _ => .error
    | .ok (some login) =>
      .ok { st with ID := toString login.PrincipalID, Name := login.Name,
                    DefaultDatabase := login.DefaultDatabaseName,
                    DefaultLanguage := login.DefaultLanguageName,
                    CheckExpirationEnabled := login.CheckExpirationEnabled,
                    CheckPolicyEnabled := login.CheckPolicyEnabled,
                    IsDisabled := login.IsDisabled }
    | .ok none => .removed

/-- `DatabaseResource.Read` (resource_server_permission.go 300–341): lookup
by id when the stored id parses, falling back to lookup by name; a miss on
both removes the resource; both the id and the name are rewritten from the
found row. -/
def DatabaseRead (st : DatabaseResourceModel) (idParseOk : Bool)
    (byIDRes byNameRes : Except String (Option Database)) :
    ReadOutcome DatabaseResourceModel :=
  match (if idParseOk then byIDRes else .ok none) with
  | .error _ => .error
  | .ok (some db) => .ok { st with ID := toString db.ID, Name := db.Name }
  | .ok none =>
    match byNameRes with
    | .error _ => .error
    | .ok (some db) => .ok { st with ID := toString db.ID, Name := db.Name }
    | .ok none => .removed

/-! ## Permission Update (Converge) command emission -/

/-- Commands issued by `DatabasePermissionResource.Update` (137–158): when
the planned grant option differs from the one in state, revoke then re-grant
with the new option; otherwise nothing. -/
def DatabasePermissionUpdateCmds (plan state : DatabasePermissionResourceModel) :
    List String :=
  if plan.WithGrantOption != state.WithGrantOption then
    [RevokeDatabasePermissionQuery plan.PrincipalName plan.Permission,
     GrantDatabasePermissionQuery plan.PrincipalName plan.Permission plan.WithGrantOption]
  else []

/-- State written by `DatabasePermissionResource.Update`: the planned state
verbatim (`resp.State.Set(ctx, &data)`). -/
def DatabasePermissionUpdateState (plan : DatabasePermissionResourceModel) :
    DatabasePermissionResourceModel := plan

/-- Commands issued by `SchemaPermissionResource.Update` (part_013 144–164). -/
def SchemaPermissionUpdateCmds (plan state : SchemaPermissionResourceModel) :
    List String :=
  if plan.WithGrantOption != state.WithGrantOption then
    [RevokeSchemaPermissionQuery plan.SchemaName plan.PrincipalName plan.Permission,
     GrantSchemaPermissionQuery plan.SchemaName plan.PrincipalName plan.Permission
       plan.WithGrantOption]
  else []

/-- State written by `SchemaPermissionResource.Update`: the planned state
verbatim. -/
def SchemaPermissionUpdateState (plan : SchemaPermissionResourceModel) :
    SchemaPermissionResourceModel := plan

/-- The id `DatabasePermissionResource.Create` stores (line 111):
`database/principal/PERMISSION` with the permission upper-cased. -/
def DatabasePermissionCreateID (databaseName principalName permission : String) : String :=
  databaseName ++ "/" ++ principalName ++ "/" ++ strToUpper permission

/-- The id `SchemaPermissionResource.Create` stores (part_013 line 113). -/
def SchemaPermissionCreateID (databaseName schemaName principalName permission : String) :
    String :=
  databaseName ++ "/" ++ schemaName ++ "/" ++ principalName ++ "/" ++ strToUpper permission

/-! ## Role-membership diff (`SQLUserResource.Update`, 244–292) -/

/-- Roles to add: desired roles absent from the current set
(`if !currentSet[role]` over `desiredRoles`). -/
def toAddRoles (desiredRoles currentRoles : List String) : List String :=
  desiredRoles.filter (fun role => !(currentRoles.contains role))

/-- Roles to remove: current roles absent from the desired set
(`if !desiredSet[role]` over `currentRoles`). -/
def toRemoveRoles (desiredRoles currentRoles : List String) : List String :=
  currentRoles.filter (fun role => !(desiredRoles.contains role))

/-- One membership command: `ALTER ROLE … ADD MEMBER …` or
`ALTER ROLE … DROP MEMBER …`. -/
inductive RoleCmd where
  | add (role : String)
  | remove (role : String)
deriving DecidableEq, Repr

/-- Whether a membership command is an addition. -/
def RoleCmd.isAdd : RoleCmd → Bool
  | .add _ => true
  | .remove _ => false

/-- The membership commands `SQLUserResource.Update` issues, in order: the
add loop runs to completion before the remove loop starts. -/
def SQLUserUpdateRoleCmds (desiredRoles currentRoles : List String) : List RoleCmd :=
  (toAddRoles desiredRoles currentRoles).map RoleCmd.add ++
    (toRemoveRoles desiredRoles currentRoles).map RoleCmd.remove

/-- Applying an add list then a remove list to an observed membership list
(set semantics: adds are unioned in, removes filtered out). -/
def applyMembership (observed adds removes : List String) : List String :=
  (observed ++ adds).filter (fun role => !(removes.contains role))

/-! ## Helper lemmas -/

/-- `Char.ofNat` round-trips on ASCII code points. -/
theorem charOfNat_toNat {n : Nat} (h : n < 128) : (Char.ofNat n).toNat = n := by
  have hv : n.isValidChar := Or.inl (by omega)
  simp [Char.ofNat, hv, Char.toNat, Char.ofNatAux, UInt32.toNat, UInt32.ofNat',
    BitVec.toNat_ofNat]

/-- Upper-casing a character twice equals upper-casing once. -/
theorem charToUpper_idem (c : Char) : charToUpper (charToUpper c) = charToUpper c := by
  unfold charToUpper
  by_cases h : 97 ≤ c.toNat ∧ c.toNat ≤ 122
  · have ht : (Char.ofNat (c.toNat - 32)).toNat = c.toNat - 32 := charOfNat_toNat (by omega)
    rw [if_pos h, if_neg (by omega)]
  · rw [if_neg h, if_neg h]

/-- Upper-casing a string twice equals upper-casing once. -/
theorem strToUpper_idem (s : String) : strToUpper (strToUpper s) = strToUpper s := by
  simp [strToUpper, List.map_map, Function.comp_def, charToUpper_idem]

/-- `hexDecodeList` succeeds exactly on even-length all-hex character lists. -/
theorem hexDecodeList_isSome_iff : ∀ (l : List Char),
    (hexDecodeList l).isSome = true ↔
      (l.length % 2 = 0 ∧ ∀ c ∈ l, (hexDigitVal c).isSome = true) := by
  intro l
  induction l using hexDecodeList.induct with
  | case1 => simp [hexDecodeList]
  | case2 c => simp [hexDecodeList]
  | case3 c1 c2 rest h l bs hrest hc2 hc1 ih =>
    have hre := ih.mp (by simp [hrest])
    have hre1 := hre.1
    simp only [hexDecodeList, hc1, hc2, hrest, List.mem_cons, Option.isSome_some,
      true_iff]
    refine ⟨by simp only [List.length_cons]; omega, ?_⟩
    intro c hc
    rcases hc with rfl | rfl | hc
    · simp [hc1]
    · simp [hc2]
    · exact hre.2 c hc
  | case4 c1 c2 rest hfail ih =>
    have hnone : hexDecodeList (c1 :: c2 :: rest) = none := by
      simp only [hexDecodeList]
    rw [hnone]
    simp only [Option.isSome_none, Bool.false_eq_true, false_iff, not_and]
    intro hlen hall
    have hc1 : (hexDigitVal c1).isSome = true := hall c1 (by simp)
    have hc2 : (hexDigitVal c2).isSome = true := hall c2 (by simp)
    have hrest : (hexDecodeList rest).isSome = true := by
      refine ih.mpr ⟨by simp only [List.length_cons] at hlen; omega, ?_⟩
      intro c hc
      exact hall c (by simp [hc])
    obtain ⟨v1, h1⟩ := Option.isSome_iff_exists.mp hc1
    obtain ⟨v2, h2⟩ := Option.isSome_iff_exists.mp hc2
    obtain ⟨bs, h3⟩ := Option.isSome_iff_exists.mp hrest
    exact hfail v1 v2 bs h1 h2 h3

/-- A successful hex decode yields half as many bytes as characters. -/
theorem hexDecodeList_length : ∀ (l : List Char) (bs : List Nat),
    hexDecodeList l = some bs → 2 * bs.length = l.length := by
  intro l
  induction l using hexDecodeList.induct with
  | case1 =>
    intro bs h
    simp [hexDecodeList] at h
    simp [← h]
  | case2 c => intro bs h; simp [hexDecodeList] at h
  | case3 c1 c2 rest h l bs hrest hc2 hc1 ih =>
    intro bs' h'
    simp only [hexDecodeList, hc1, hc2, hrest, Option.some.injEq] at h'
    have := ih bs hrest
    subst h'
    simp only [List.length_cons]
    omega
  | case4 c1 c2 rest hfail ih =>
    intro bs' h'
    have hnone : hexDecodeList (c1 :: c2 :: rest) = none := by
      simp only [hexDecodeList]
    rw [hnone] at h'
    exact absurd h' (by simp)

/-- The in-place swaps of `guidToSID` realize the spec's group reversals on
any byte list of length at least 8. -/
theorem guidSwapBytes_eq_reorder : ∀ (bs : List Nat), 8 ≤ bs.length →
    guidSwapBytes bs = guidReorderSpec bs
  | _ :: _ :: _ :: _ :: _ :: _ :: _ :: _ :: _, _ => rfl
  | [], h => by simp at h
  | [_], h => by simp at h
  | [_, _], h => by simp at h
  | [_, _, _], h => by simp at h
  | [_, _, _, _], h => by simp at h
  | [_, _, _, _, _], h => by simp at h
  | [_, _, _, _, _, _], h => by simp at h
  | [_, _, _, _, _, _, _], h => by simp at h

/-! ## Claim theorems: SID codec -/

/-- C7: the GUID-to-SID encoding reverses bytes 0–3 as one group, reverses
bytes 4–5, reverses bytes 6–7 and leaves bytes 8–15 unchanged, re-encoding
as upper-case hex with a `0x` prefix; on the GUID
`cbb9c7db-2777-47b7-8954-0269ae3dc553` it returns exactly
`0xDBC7B9CB7727B74789540269AE3DC553`; and it succeeds on every well-formed
GUID (32 hex characters after hyphen removal).  Determinism is immediate:
`guidToSID` is a pure function of its input. -/
theorem guidToSID_encoding (g : String) (bs : List Nat)
    (hdec : hexDecodeList (cleanGUIDOf g) = some bs)
    (hlen : (cleanGUIDOf g).length = 32) :
    guidToSID g = .ok (String.mk ('0' :: 'x' ::
        (hexEncodeList (guidReorderSpec bs)).map charToUpper))
    ∧ guidToSID "cbb9c7db-2777-47b7-8954-0269ae3dc553"
        = .ok "0xDBC7B9CB7727B74789540269AE3DC553"
    ∧ (∀ g' : String, isWellFormedGUID g' = true → ∃ s, guidToSID g' = .ok s) := by
  refine ⟨?_, rfl, ?_⟩
  · have hbs : 2 * bs.length = 32 := by
      have := hexDecodeList_length _ _ hdec
      omega
    have hswap : guidSwapBytes bs = guidReorderSpec bs :=
      guidSwapBytes_eq_reorder bs (by omega)
    unfold guidToSID
    rw [if_neg (by omega), hdec]
    simp [hswap]
  · intro g' hwf
    unfold isWellFormedGUID at hwf
    simp only [Bool.and_eq_true, beq_iff_eq, List.all_eq_true] at hwf
    have hsome : (hexDecodeList (cleanGUIDOf g')).isSome = true := by
      refine (hexDecodeList_isSome_iff _).mpr ⟨by omega, ?_⟩
      intro c hc
      exact hwf.2 c hc
    obtain ⟨bs', hbs'⟩ := Option.isSome_iff_exists.mp hsome
    refine ⟨String.mk ('0' :: 'x' ::
      (hexEncodeList (guidSwapBytes bs')).map charToUpper), ?_⟩
    unfold guidToSID
    rw [if_neg (by omega), hbs']

/-- Witness for C7 at the concrete GUID of the spec. -/
theorem guidToSID_encoding_witness :
    guidToSID "cbb9c7db-2777-47b7-8954-0269ae3dc553"
      = .ok (String.mk ('0' :: 'x' :: (hexEncodeList (guidReorderSpec
          [0xcb, 0xb9, 0xc7, 0xdb, 0x27, 0x77, 0x47, 0xb7,
           0x89, 0x54, 0x02, 0x69, 0xae, 0x3d, 0xc5, 0x53])).map charToUpper))
    ∧ guidToSID "cbb9c7db-2777-47b7-8954-0269ae3dc553"
        = .ok "0xDBC7B9CB7727B74789540269AE3DC553"
    ∧ (∀ g' : String, isWellFormedGUID g' = true → ∃ s, guidToSID g' = .ok s) :=
  guidToSID_encoding "cbb9c7db-2777-47b7-8954-0269ae3dc553" _ rfl rfl

/-- C8 counterexample: a 32-character input made of non-hex characters does
not fail with the invalid-identifier-format error — it fails with the
distinct hex-decode error, refuting "it never fails with a different error
kind". -/
theorem guidToSID_nonhex_error :
    guidToSID "zzzzzzzzzzzzzzzzzzzzzzzzzzzzzzzz" = .error SIDError.decodeFailed
    ∧ SIDError.decodeFailed ≠ SIDError.invalidGUIDFormat :=
  ⟨rfl, by decide⟩

/-- C8 (amended): an input whose hyphen-stripped form has length ≠ 32 fails
with the invalid-identifier-format error; an input of hyphen-stripped length
32 containing a non-hex character fails with the hex-decode error (a
different error kind).  In both cases encoding never succeeds. -/
theorem guidToSID_malformed (g : String) :
    ((cleanGUIDOf g).length ≠ 32 →
      guidToSID g = .error SIDError.invalidGUIDFormat)
    ∧ ((cleanGUIDOf g).length = 32 →
        (∃ c ∈ cleanGUIDOf g, hexDigitVal c = none) →
        guidToSID g = .error SIDError.decodeFailed) := by
  constructor
  · intro hlen
    unfold guidToSID
    rw [if_pos hlen]
  · intro hlen hbad
    obtain ⟨c, hc, hcbad⟩ := hbad
    have hnone : hexDecodeList (cleanGUIDOf g) = none := by
      cases h : hexDecodeList (cleanGUIDOf g) with
      | none => rfl
      | some bs =>
        have hsome := (hexDecodeList_isSome_iff (cleanGUIDOf g)).mp (by simp [h])
        have := hsome.2 c hc
        rw [hcbad] at this
        simp at this
    unfold guidToSID
    rw [if_neg (by omega), hnone]

/-- Witness for C8's amended statement at two concrete malformed inputs. -/
theorem guidToSID_malformed_witness :
    guidToSID "abc" = .error SIDError.invalidGUIDFormat
    ∧ guidToSID "zzzzzzzzzzzzzzzz-zzzzzzzzzzzzzzzz" = .error SIDError.decodeFailed :=
  ⟨(guidToSID_malformed "abc").1 (by decide),
   (guidToSID_malformed "zzzzzzzzzzzzzzzz-zzzzzzzzzzzzzzzz").2 (by decide)
     ⟨'z', by decide, by decide⟩⟩

/-! ## Claim theorems: revoke cascade policy and permission update -/

/-- `(a ++ b).data = a.data ++ b.data` for strings. -/
theorem strData_append (a b : String) : (a ++ b).data = a.data ++ b.data := rfl

/-- C5: every schema-scoped revoke command ends in the ` CASCADE` flag, and
no database- or server-scoped revoke command does, for all schemas,
principals and permission names. -/
theorem revoke_cascade_policy (s pr p : String) :
    (∃ t, t ++ " CASCADE" = RevokeSchemaPermissionQuery s pr p)
    ∧ (¬ ∃ t, t ++ " CASCADE" = RevokeDatabasePermissionQuery pr p)
    ∧ (¬ ∃ t, t ++ " CASCADE" = RevokeServerPermissionQuery pr p) := by
  refine ⟨⟨"REVOKE " ++ strToUpper p ++ " ON SCHEMA::[" ++ s ++ "] FROM [" ++ pr ++ "]", ?_⟩,
    ?_, ?_⟩
  · apply String.ext
    have hlit : ("]").data ++ (" CASCADE").data = ("] CASCADE").data := rfl
    simp only [RevokeSchemaPermissionQuery, strData_append, List.append_assoc, hlit]
  · rintro ⟨t, ht⟩
    have hd := congrArg String.data ht
    simp only [RevokeDatabasePermissionQuery, strData_append] at hd
    have hrev := congrArg List.reverse hd
    have hE : (" CASCADE").data.reverse = 'E' :: ['D', 'A', 'C', 'S', 'A', 'C', ' '] := rfl
    have hBr : ("]").data.reverse = [']'] := rfl
    simp only [List.reverse_append, hE, hBr, List.cons_append] at hrev
    simp at hrev
  · rintro ⟨t, ht⟩
    have hd := congrArg String.data ht
    simp only [RevokeServerPermissionQuery, strData_append] at hd
    have hrev := congrArg List.reverse hd
    have hE : (" CASCADE").data.reverse = 'E' :: ['D', 'A', 'C', 'S', 'A', 'C', ' '] := rfl
    have hBr : ("]").data.reverse = [']'] := rfl
    simp only [List.reverse_append, hE, hBr, List.cons_append] at hrev
    simp at hrev

/-- C4: native commands are issued by a permission Update iff the desired
grant option differs from the observed one; when they differ, exactly revoke
then grant (in that order) is executed; when equal, no command runs — and
since Update always writes the planned state, a second Converge with the
same desired state issues nothing.  Holds at both database and schema
scope. -/
theorem permission_update_diff (plan state : DatabasePermissionResourceModel)
    (plan' state' : SchemaPermissionResourceModel) :
    ((plan.WithGrantOption = state.WithGrantOption →
        DatabasePermissionUpdateCmds plan state = [])
      ∧ (plan.WithGrantOption ≠ state.WithGrantOption →
        DatabasePermissionUpdateCmds plan state =
          [RevokeDatabasePermissionQuery plan.PrincipalName plan.Permission,
           GrantDatabasePermissionQuery plan.PrincipalName plan.Permission
             plan.WithGrantOption])
      ∧ DatabasePermissionUpdateCmds plan (DatabasePermissionUpdateState plan) = [])
    ∧ ((plan'.WithGrantOption = state'.WithGrantOption →
        SchemaPermissionUpdateCmds plan' state' = [])
      ∧ (plan'.WithGrantOption ≠ state'.WithGrantOption →
        SchemaPermissionUpdateCmds plan' state' =
          [RevokeSchemaPermissionQuery plan'.SchemaName plan'.PrincipalName plan'.Permission,
           GrantSchemaPermissionQuery plan'.SchemaName plan'.PrincipalName plan'.Permission
             plan'.WithGrantOption])
      ∧ SchemaPermissionUpdateCmds plan' (SchemaPermissionUpdateState plan') = []) := by
  refine ⟨⟨?_, ?_, ?_⟩, ?_, ?_, ?_⟩
  · intro h
    simp [DatabasePermissionUpdateCmds, h]
  · intro h
    simp [DatabasePermissionUpdateCmds, bne_iff_ne, h]
  · simp [DatabasePermissionUpdateCmds, DatabasePermissionUpdateState]
  · intro h
    simp [SchemaPermissionUpdateCmds, h]
  · intro h
    simp [SchemaPermissionUpdateCmds, bne_iff_ne, h]
  · simp [SchemaPermissionUpdateCmds, SchemaPermissionUpdateState]

/-- Witness for C4 at concrete states (differing and equal grant options). -/
theorem permission_update_diff_witness :
    (DatabasePermissionUpdateCmds
        ⟨"db/u/SELECT", "db", "u", "SELECT", true⟩ ⟨"db/u/SELECT", "db", "u", "SELECT", false⟩ =
      [RevokeDatabasePermissionQuery "u" "SELECT",
       GrantDatabasePermissionQuery "u" "SELECT" true])
    ∧ SchemaPermissionUpdateCmds
        ⟨"db/s/u/SELECT", "db", "s", "u", "SELECT", false⟩
        ⟨"db/s/u/SELECT", "db", "s", "u", "SELECT", false⟩ = [] :=
  ⟨((permission_update_diff ⟨"db/u/SELECT", "db", "u", "SELECT", true⟩
      ⟨"db/u/SELECT", "db", "u", "SELECT", false⟩
      ⟨"db/s/u/SELECT", "db", "s", "u", "SELECT", false⟩
      ⟨"db/s/u/SELECT", "db", "s", "u", "SELECT", false⟩).1).2.1 (by decide),
   ((permission_update_diff ⟨"db/u/SELECT", "db", "u", "SELECT", true⟩
      ⟨"db/u/SELECT", "db", "u", "SELECT", false⟩
      ⟨"db/s/u/SELECT", "db", "s", "u", "SELECT", false⟩
      ⟨"db/s/u/SELECT", "db", "s", "u", "SELECT", false⟩).2).1 rfl⟩

/-! ## Claim theorems: ownership-implied (virtual) schema grants -/

/-- C2: when no explicit schema grant row matches and the principal owns the
schema, `GetSchemaPermission` synthesizes a virtual grant with grant option
true, `StateDesc = "GRANT"` and the sentinel `DatabaseID = 0` marking it as
not catalog-backed; when the principal is not the owner and no row matches,
it returns nothing (and no error). -/
theorem GetSchemaPermission_owner_virtual (cat : Catalog)
    (schemaName principalName permission : String)
    (hnorow : ∀ r ∈ cat.schemaPermRows,
      ¬ schemaPermPred schemaName principalName permission r) :
    ((∃ s ∈ cat.schemas, schemaOwnerPred schemaName principalName s) →
      ∃ p, GetSchemaPermission cat schemaName principalName permission = some p
        ∧ p.WithGrantOption = true ∧ p.DatabaseID = 0 ∧ p.StateDesc = "GRANT")
    ∧ ((∀ s ∈ cat.schemas, ¬ schemaOwnerPred schemaName principalName s) →
      GetSchemaPermission cat schemaName principalName permission = none) := by
  have h1 : cat.schemaPermRows.find?
      (schemaPermPred schemaName principalName permission) = none :=
    List.find?_eq_none.mpr hnorow
  constructor
  · rintro ⟨s, hs, hps⟩
    have hsome : (cat.schemas.find?
        (schemaOwnerPred schemaName principalName)).isSome := by
      rw [List.find?_isSome]
      exact ⟨s, hs, hps⟩
    obtain ⟨s', hs'⟩ := Option.isSome_iff_exists.mp hsome
    refine ⟨⟨s'.OwnerID, s'.OwnerName, strToUpper permission, "GRANT",
      schemaName, 0, true⟩, ?_, rfl, rfl, rfl⟩
    unfold GetSchemaPermission
    rw [h1, hs']
  · intro hnoown
    have h2 : cat.schemas.find? (schemaOwnerPred schemaName principalName) = none :=
      List.find?_eq_none.mpr hnoown
    unfold GetSchemaPermission
    rw [h1, h2]

/-- Witness for C2: a catalog with no grant rows in which `alice` owns
schema `app` (virtual grant), and `bob` does not (no grant at all). -/
theorem GetSchemaPermission_owner_virtual_witness :
    (∃ p, GetSchemaPermission ⟨5, [], [], [⟨"app", 7, "alice"⟩], [], [], [], []⟩
        "app" "alice" "select" = some p
      ∧ p.WithGrantOption = true ∧ p.DatabaseID = 0 ∧ p.StateDesc = "GRANT")
    ∧ GetSchemaPermission ⟨5, [], [], [⟨"app", 7, "alice"⟩], [], [], [], []⟩
        "app" "bob" "select" = none :=
  ⟨(GetSchemaPermission_owner_virtual ⟨5, [], [], [⟨"app", 7, "alice"⟩], [], [], [], []⟩
      "app" "alice" "select" (by intro r hr; simp at hr)).1
      ⟨⟨"app", 7, "alice"⟩, by simp, by decide⟩,
   (GetSchemaPermission_owner_virtual ⟨5, [], [], [⟨"app", 7, "alice"⟩], [], [], [], []⟩
      "app" "bob" "select" (by intro r hr; simp at hr)).2
      (by intro s hs; simp at hs; subst hs; decide)⟩

/-- C3: when the schema-permission Read observes the virtual
(ownership-implied) grant — sentinel `DatabaseID = 0` — it leaves the stored
grant-option value unchanged; when it observes a real catalog-backed grant
(`DatabaseID = DB_ID() > 0`) it overwrites the stored grant option with the
observed one. -/
theorem SchemaPermissionRead_virtual_preserves (st : SchemaPermissionResourceModel)
    (cat : Catalog) (hdb : 0 < cat.dbID) :
    ((∀ r ∈ cat.schemaPermRows,
        ¬ schemaPermPred st.SchemaName st.PrincipalName st.Permission r) →
      (∃ s ∈ cat.schemas, schemaOwnerPred st.SchemaName st.PrincipalName s) →
      ∃ st', SchemaPermissionRead st
          (.ok (GetSchemaPermission cat st.SchemaName st.PrincipalName st.Permission))
          = .ok st'
        ∧ st'.WithGrantOption = st.WithGrantOption)
    ∧ (∀ r, cat.schemaPermRows.find?
          (schemaPermPred st.SchemaName st.PrincipalName st.Permission) = some r →
      ∃ st', SchemaPermissionRead st
          (.ok (GetSchemaPermission cat st.SchemaName st.PrincipalName st.Permission))
          = .ok st'
        ∧ st'.WithGrantOption = r.WithGrantOption) := by
  constructor
  · intro hnorow hown
    have h1 : cat.schemaPermRows.find?
        (schemaPermPred st.SchemaName st.PrincipalName st.Permission) = none :=
      List.find?_eq_none.mpr hnorow
    obtain ⟨s, hs, hps⟩ := hown
    have hsome : (cat.schemas.find?
        (schemaOwnerPred st.SchemaName st.PrincipalName)).isSome := by
      rw [List.find?_isSome]
      exact ⟨s, hs, hps⟩
    obtain ⟨s', hs'⟩ := Option.isSome_iff_exists.mp hsome
    refine ⟨{ st with WithGrantOption := st.WithGrantOption }, ?_, rfl⟩
    unfold GetSchemaPermission
    rw [h1, hs']
    simp [SchemaPermissionRead]
  · intro r hr
    refine ⟨{ st with WithGrantOption := r.WithGrantOption }, ?_, rfl⟩
    unfold GetSchemaPermission
    rw [hr]
    simp [SchemaPermissionRead, hdb]

/-- Witness for C3: the virtual case for owner `alice` on schema `app`
(grant option in state survives), and the real case for a matching grant
row for `bob`. -/
theorem SchemaPermissionRead_virtual_preserves_witness :
    (∃ st', SchemaPermissionRead ⟨"d/app/alice/SELECT", "d", "app", "alice", "SELECT", true⟩
        (.ok (GetSchemaPermission ⟨5, [], [], [⟨"app", 7, "alice"⟩], [], [], [], []⟩
          "app" "alice" "SELECT")) = .ok st'
      ∧ st'.WithGrantOption = true)
    ∧ (∃ st', SchemaPermissionRead ⟨"d/app/bob/SELECT", "d", "app", "bob", "SELECT", true⟩
        (.ok (GetSchemaPermission
          ⟨5, [], [⟨9, "bob", "SELECT", "GRANT", "app", false⟩], [], [], [], [], []⟩
          "app" "bob" "SELECT")) = .ok st'
      ∧ st'.WithGrantOption = false) :=
  ⟨(SchemaPermissionRead_virtual_preserves
      ⟨"d/app/alice/SELECT", "d", "app", "alice", "SELECT", true⟩
      ⟨5, [], [], [⟨"app", 7, "alice"⟩], [], [], [], []⟩ (by decide)).1
      (by intro r hr; simp at hr) ⟨⟨"app", 7, "alice"⟩, by simp, by decide⟩,
   (SchemaPermissionRead_virtual_preserves
      ⟨"d/app/bob/SELECT", "d", "app", "bob", "SELECT", true⟩
      ⟨5, [], [⟨9, "bob", "SELECT", "GRANT", "app", false⟩], [], [], [], [], []⟩
      (by decide)).2 ⟨9, "bob", "SELECT", "GRANT", "app", false⟩ (by decide)⟩

/-! ## Claim theorems: permission-name upper-casing -/

/-- C10: each permission operation upper-cases its permission argument, so
every catalog lookup, native command and stored resource id is invariant
under replacing the permission by its upper-cased form; the Create ids
record the permission upper-cased. -/
theorem permission_uppercase_invariance (cat : Catalog) (db s pr p : String) (wgo : Bool) :
    GetDatabasePermission cat pr (strToUpper p) = GetDatabasePermission cat pr p
    ∧ GetSchemaPermission cat s pr (strToUpper p) = GetSchemaPermission cat s pr p
    ∧ GetServerPermission cat pr (strToUpper p) = GetServerPermission cat pr p
    ∧ GrantDatabasePermissionQuery pr (strToUpper p) wgo
        = GrantDatabasePermissionQuery pr p wgo
    ∧ RevokeDatabasePermissionQuery pr (strToUpper p) = RevokeDatabasePermissionQuery pr p
    ∧ GrantSchemaPermissionQuery s pr (strToUpper p) wgo
        = GrantSchemaPermissionQuery s pr p wgo
    ∧ RevokeSchemaPermissionQuery s pr (strToUpper p) = RevokeSchemaPermissionQuery s pr p
    ∧ GrantServerPermissionQuery pr (strToUpper p) wgo = GrantServerPermissionQuery pr p wgo
    ∧ RevokeServerPermissionQuery pr (strToUpper p) = RevokeServerPermissionQuery pr p
    ∧ DatabasePermissionCreateID db pr (strToUpper p) = DatabasePermissionCreateID db pr p
    ∧ SchemaPermissionCreateID db s pr (strToUpper p) = SchemaPermissionCreateID db s pr p
    ∧ DatabasePermissionCreateID db pr p = db ++ "/" ++ pr ++ "/" ++ strToUpper p
    ∧ SchemaPermissionCreateID db s pr p
        = db ++ "/" ++ s ++ "/" ++ pr ++ "/" ++ strToUpper p := by
  refine ⟨?_, ?_, ?_, ?_, ?_, ?_, ?_, ?_, ?_, ?_, ?_, rfl, rfl⟩
  · simp [GetDatabasePermission, strToUpper_idem]
  · have hpred : schemaPermPred s pr (strToUpper p) = schemaPermPred s pr p := by
      funext r
      simp [schemaPermPred, strToUpper_idem]
    simp [GetSchemaPermission, hpred, strToUpper_idem]
  · simp [GetServerPermission, strToUpper_idem]
  · simp [GrantDatabasePermissionQuery, strToUpper_idem]
  · simp [RevokeDatabasePermissionQuery, strToUpper_idem]
  · simp [GrantSchemaPermissionQuery, strToUpper_idem]
  · simp [RevokeSchemaPermissionQuery, strToUpper_idem]
  · simp [GrantServerPermissionQuery, strToUpper_idem]
  · simp [RevokeServerPermissionQuery, strToUpper_idem]
  · simp [DatabasePermissionCreateID, strToUpper_idem]
  · simp [SchemaPermissionCreateID, strToUpper_idem]

/-! ## Claim theorems: membership diff -/

/-- Dropping the leading additions from the command list leaves exactly the
removal commands. -/
theorem dropWhile_role_cmds (adds removes : List String) :
    ((adds.map RoleCmd.add ++ removes.map RoleCmd.remove).dropWhile
        (fun c => c.isAdd)) = removes.map RoleCmd.remove := by
  induction adds with
  | nil =>
    cases removes with
    | nil => rfl
    | cons r rs => simp [List.dropWhile, RoleCmd.isAdd]
  | cons a as ih => simp [List.dropWhile, RoleCmd.isAdd, ih]

/-- C6: the membership delta of the user Update is the pure set difference
(`toAdd = desired − observed`, `toRemove = observed − desired`, hence the
two disjointness facts), all additions precede all removals in the emitted
command sequence, and applying the additions then the removals to the
observed set yields exactly the desired set. -/
theorem membership_diff (desired current : List String) :
    (∀ r, r ∈ toAddRoles desired current ↔ r ∈ desired ∧ r ∉ current)
    ∧ (∀ r, r ∈ toRemoveRoles desired current ↔ r ∈ current ∧ r ∉ desired)
    ∧ (∀ r, r ∈ applyMembership current (toAddRoles desired current)
        (toRemoveRoles desired current) ↔ r ∈ desired)
    ∧ (∀ c ∈ (SQLUserUpdateRoleCmds desired current).dropWhile (fun c => c.isAdd),
        ∃ role, c = RoleCmd.remove role) := by
  refine ⟨?_, ?_, ?_, ?_⟩
  · intro r
    simp [toAddRoles, List.mem_filter]
  · intro r
    simp [toRemoveRoles, List.mem_filter]
  · intro r
    simp [applyMembership, toAddRoles, toRemoveRoles, List.mem_filter, List.mem_append]
    tauto
  · intro c hc
    rw [SQLUserUpdateRoleCmds, dropWhile_role_cmds] at hc
    obtain ⟨role, _, rfl⟩ := List.mem_map.mp hc
    exact ⟨role, rfl⟩

/-! ## Claim theorems: Refresh absence handling and drift recovery -/

/-- C9: for every catalog-backed resource Read in the provider, absence of
the entity (`ok none` from the lookup) removes the resource from tracked
state and is never reported as an error; the error outcome occurs exactly
when a lookup itself failed (for the user resources: the user lookup
failed, or the user was found and the role lookup failed; for login and
database: the consulted id- or name-lookup failed). -/
theorem read_absence_semantics :
    (∀ (st : DatabaseRoleResourceModel) (res : Except String (Option DatabaseRole)),
      (DatabaseRoleRead st res = .removed ↔ res = .ok none)
      ∧ (DatabaseRoleRead st res = .error ↔ ∃ e, res = .error e))
    ∧ (∀ (st : DatabasePermissionResourceModel)
        (res : Except String (Option DatabasePermission)),
      (DatabasePermissionRead st res = .removed ↔ res = .ok none)
      ∧ (DatabasePermissionRead st res = .error ↔ ∃ e, res = .error e))
    ∧ (∀ (st : SchemaPermissionResourceModel)
        (res : Except String (Option SchemaPermission)),
      (SchemaPermissionRead st res = .removed ↔ res = .ok none)
      ∧ (SchemaPermissionRead st res = .error ↔ ∃ e, res = .error e))
    ∧ (∀ (st : ServerPermissionResourceModel)
        (res : Except String (Option ServerPermission)),
      (ServerPermissionRead st res = .removed ↔ res = .ok none)
      ∧ (ServerPermissionRead st res = .error ↔ ∃ e, res = .error e))
    ∧ (∀ (st : ServerRoleResourceModel) (res : Except String (Option ServerRole)),
      (ServerRoleRead st res = .removed ↔ res = .ok none)
      ∧ (ServerRoleRead st res = .error ↔ ∃ e, res = .error e))
    ∧ (∀ (st : SchemaResourceModel) (res : Except String (Option Schema)),
      (SchemaRead st res = .removed ↔ res = .ok none)
      ∧ (SchemaRead st res = .error ↔ ∃ e, res = .error e))
    ∧ (∀ (st : DatabaseRoleMemberResourceModel)
        (res : Except String (Option DatabaseRoleMember)),
      (DatabaseRoleMemberRead st res = .removed ↔ res = .ok none)
      ∧ (DatabaseRoleMemberRead st res = .error ↔ ∃ e, res = .error e))
    ∧ (∀ (st : ServerRoleMemberResourceModel)
        (res : Except String (Option ServerRoleMember)),
      (ServerRoleMemberRead st res = .removed ↔ res = .ok none)
      ∧ (ServerRoleMemberRead st res = .error ↔ ∃ e, res = .error e))
    ∧ (∀ (st : AzureADServicePrincipalResourceModel)
        (res : Except String (Option User)),
      (AzureADServicePrincipalRead st res = .removed ↔ res = .ok none)
      ∧ (AzureADServicePrincipalRead st res = .error ↔ ∃ e, res = .error e))
    ∧ (∀ (st : SQLUserResourceModel) (userRes : Except String (Option User))
        (rolesRes : Except String (List String)),
      (SQLUserRead st userRes rolesRes = .removed ↔ userRes = .ok none)
      ∧ (SQLUserRead st userRes rolesRes = .error ↔
          (∃ e, userRes = .error e)
          ∨ ((∃ u, userRes = .ok (some u)) ∧ ∃ e, rolesRes = .error e)))
    ∧ (∀ (st : AzureADUserResourceModel) (newID : String)
        (userRes : Except String (Option User))
        (rolesRes : Except String (List String)),
      (AzureADUserRead st newID userRes rolesRes = .removed ↔ userRes = .ok none)
      ∧ (AzureADUserRead st newID userRes rolesRes = .error ↔
          (∃ e, userRes = .error e)
          ∨ ((∃ u, userRes = .ok (some u)) ∧ ∃ e, rolesRes = .error e)))
    ∧ (∀ (st : SQLLoginResourceModel) (idParseOk : Bool)
        (byIDRes byNameRes : Except String (Option SQLLogin)),
      (SQLLoginRead st idParseOk byIDRes byNameRes = .removed ↔
        (if idParseOk then byIDRes else .ok none) = .ok none ∧ byNameRes = .ok none)
      ∧ (SQLLoginRead st idParseOk byIDRes byNameRes = .error ↔
          (∃ e, (if idParseOk then byIDRes else .ok none) = .error e)
          ∨ ((if idParseOk then byIDRes else .ok none) = .ok none
              ∧ ∃ e, byNameRes = .error e)))
    ∧ (∀ (st : DatabaseResourceModel) (idParseOk : Bool)
        (byIDRes byNameRes : Except String (Option Database)),
      (DatabaseRead st idParseOk byIDRes byNameRes = .removed ↔
        (if idParseOk then byIDRes else .ok none) = .ok none ∧ byNameRes = .ok none)
      ∧ (DatabaseRead st idParseOk byIDRes byNameRes = .error ↔
          (∃ e, (if idParseOk then byIDRes else .ok none) = .error e)
          ∨ ((if idParseOk then byIDRes else .ok none) = .ok none
              ∧ ∃ e, byNameRes = .error e))) := by
  refine ⟨?_, ?_, ?_, ?_, ?_, ?_, ?_, ?_, ?_, ?_, ?_, ?_, ?_⟩
  · intro st res
    rcases res with e | o
    · simp [DatabaseRoleRead]
    · rcases o with _ | role <;> simp [DatabaseRoleRead]
  · intro st res
    rcases res with e | o
    · simp [DatabasePermissionRead]
    · rcases o with _ | perm <;> simp [DatabasePermissionRead]
  · intro st res
    rcases res with e | o
    · simp [SchemaPermissionRead]
    · rcases o with _ | perm <;> simp [SchemaPermissionRead]
  · intro st res
    rcases res with e | o
    · simp [ServerPermissionRead]
    · rcases o with _ | perm <;> simp [ServerPermissionRead]
  · intro st res
    rcases res with e | o
    · simp [ServerRoleRead]
    · rcases o with _ | role <;> simp [ServerRoleRead]
  · intro st res
    rcases res with e | o
    · simp [SchemaRead]
    · rcases o with _ | schema <;> simp [SchemaRead]
  · intro st res
    rcases res with e | o
    · simp [DatabaseRoleMemberRead]
    · rcases o with _ | member <;> simp [DatabaseRoleMemberRead]
  · intro st res
    rcases res with e | o
    · simp [ServerRoleMemberRead]
    · rcases o with _ | member <;> simp [ServerRoleMemberRead]
  · intro st res
    rcases res with e | o
    · simp [AzureADServicePrincipalRead]
    · rcases o with _ | user <;> simp [AzureADServicePrincipalRead]
  · intro st userRes rolesRes
    rcases userRes with e | o
    · simp [SQLUserRead]
    · rcases o with _ | user
      · simp [SQLUserRead]
      · rcases rolesRes with e' | roles <;> simp [SQLUserRead]
  · intro st newID userRes rolesRes
    rcases userRes with e | o
    · simp [AzureADUserRead]
    · rcases o with _ | user
      · simp [AzureADUserRead]
      · rcases rolesRes with e' | roles <;> simp [AzureADUserRead]
  · intro st idParseOk byIDRes byNameRes
    rcases idParseOk with _ | _
    · simp only [if_neg Bool.false_ne_true]
      rcases byNameRes with e | o
      · simp [SQLLoginRead]
      · rcases o with _ | login <;> simp [SQLLoginRead]
    · simp only [if_pos rfl]
      rcases byIDRes with e | o
      · simp [SQLLoginRead]
      · rcases o with _ | login
        · rcases byNameRes with e' | o'
          · simp [SQLLoginRead]
          · rcases o' with _ | login' <;> simp [SQLLoginRead]
        · simp [SQLLoginRead]
  · intro st idParseOk byIDRes byNameRes
    rcases idParseOk with _ | _
    · simp only [if_neg Bool.false_ne_true]
      rcases byNameRes with e | o
      · simp [DatabaseRead]
      · rcases o with _ | db <;> simp [DatabaseRead]
    · simp only [if_pos rfl]
      rcases byIDRes with e | o
      · simp [DatabaseRead]
      · rcases o with _ | db
        · rcases byNameRes with e' | o'
          · simp [DatabaseRead]
          · rcases o' with _ | db' <;> simp [DatabaseRead]
        · simp [DatabaseRead]

/-- C1 counterexample: a server role dropped and recreated under the same
name (`r`, old principal id 1, new principal id 2).  The role exists in the
catalog under its old name with the new id, yet the server-role Read looks
up only the stale stored id, finds nothing and removes the resource — it
does not return the role under its new identifier, refuting "this holds for
every tracked entity type, including server roles". -/
theorem serverRole_drift_counterexample :
    GetServerRole ⟨1, [], [], [], [], [], [⟨2, "r", "sa", false⟩], []⟩ "r"
      = some ⟨2, "r", "sa", false⟩
    ∧ ServerRoleRead ⟨"1", "r", "sa"⟩
        (.ok (GetServerRoleByID ⟨1, [], [], [], [], [], [⟨2, "r", "sa", false⟩], []⟩
          (atoiOrZero "1"))) = .removed := by
  constructor
  · rfl
  · rfl

/-- C1 (amended): the SQL user resource's Read resolves by name, so a user
dropped and recreated under the same name is returned under — and its state
rewritten with — the new internal identifier; the server-role resource's
Read, by contrast, resolves only by the stored internal identifier, so a
recreated server role is reported absent and removed from state rather than
rebound. -/
theorem drift_recovery (st : SQLUserResourceModel) (cat : Catalog) (u : User)
    (hget : GetUser cat st.Name = some u) (roles : List String)
    (st2 : ServerRoleResourceModel) (cat2 : Catalog)
    (hmiss : GetServerRoleByID cat2 (atoiOrZero st2.ID) = none) :
    (∃ st', SQLUserRead st (.ok (GetUser cat st.Name)) (.ok roles) = .ok st'
      ∧ st'.ID = toString u.DatabaseID ++ "/" ++ toString u.PrincipalID)
    ∧ ServerRoleRead st2 (.ok (GetServerRoleByID cat2 (atoiOrZero st2.ID)))
        = .removed := by
  constructor
  · rw [hget]
    exact ⟨_, rfl, rfl⟩
  · rw [hmiss]
    rfl

/-- Witness for C1's amended statement: user `alice` recreated with new
principal id 42 is rebound (state id becomes `5/42`); server role `r`
recreated with new principal id 2 is removed. -/
theorem drift_recovery_witness :
    (∃ st', SQLUserRead ⟨"5/7", "d", "alice", "log", "dbo", []⟩
        (.ok (GetUser ⟨5, [], [], [], [], [⟨42, "alice", 5, "dbo", "S", "log"⟩], [], []⟩
          "alice")) (.ok []) = .ok st'
      ∧ st'.ID = toString (5 : Int) ++ "/" ++ toString (42 : Int))
    ∧ ServerRoleRead ⟨"1", "r", "sa"⟩
        (.ok (GetServerRoleByID ⟨1, [], [], [], [], [], [⟨2, "r", "sa", false⟩], []⟩
          (atoiOrZero "1"))) = .removed :=
  drift_recovery ⟨"5/7", "d", "alice", "log", "dbo", []⟩
    ⟨5, [], [], [], [], [⟨42, "alice", 5, "dbo", "S", "log"⟩], [], []⟩
    ⟨42, "alice", 5, "dbo", "S", "log"⟩ rfl []
    ⟨"1", "r", "sa"⟩ ⟨1, [], [], [], [], [], [⟨2, "r", "sa", false⟩], []⟩ rfl

/-- Witness for C5 at concrete arguments. -/
theorem revoke_cascade_policy_witness :
    (∃ t, t ++ " CASCADE" = RevokeSchemaPermissionQuery "app" "u" "select")
    ∧ (¬ ∃ t, t ++ " CASCADE" = RevokeDatabasePermissionQuery "u" "select")
    ∧ (¬ ∃ t, t ++ " CASCADE" = RevokeServerPermissionQuery "u" "select") :=
  revoke_cascade_policy "app" "u" "select"

/-- Witness for C6 at concrete role lists. -/
theorem membership_diff_witness :
    ("a" ∈ toAddRoles ["a", "b"] ["b", "c"] ↔ "a" ∈ ["a", "b"] ∧ "a" ∉ ["b", "c"])
    ∧ ("c" ∈ toRemoveRoles ["a", "b"] ["b", "c"] ↔
        "c" ∈ ["b", "c"] ∧ "c" ∉ ["a", "b"])
    ∧ (∃ role, RoleCmd.remove "c" = RoleCmd.remove role) :=
  ⟨(membership_diff ["a", "b"] ["b", "c"]).1 "a",
   (membership_diff ["a", "b"] ["b", "c"]).2.1 "c",
   (membership_diff ["a", "b"] ["b", "c"]).2.2.2 (RoleCmd.remove "c") (by decide)⟩

/-- Witness for C9 at concrete lookup results. -/
theorem read_absence_semantics_witness :
    DatabaseRoleRead ⟨"1/2", "d", "r", "o"⟩ (.ok none) = .removed
    ∧ DatabasePermissionRead ⟨"d/u/SELECT", "d", "u", "SELECT", false⟩
        (.error "connection reset") = .error :=
  ⟨((read_absence_semantics.1 ⟨"1/2", "d", "r", "o"⟩ (.ok none)).1).mpr rfl,
   ((read_absence_semantics.2.1 ⟨"d/u/SELECT", "d", "u", "SELECT", false⟩
      (.error "connection reset")).2).mpr ⟨"connection reset", rfl⟩⟩

/-- Witness for C10 at concrete arguments. -/
theorem permission_uppercase_invariance_witness :
    GetDatabasePermission ⟨1, [], [], [], [], [], [], []⟩ "u" (strToUpper "select")
      = GetDatabasePermission ⟨1, [], [], [], [], [], [], []⟩ "u" "select"
    ∧ DatabasePermissionCreateID "d" "u" "select"
      = "d" ++ "/" ++ "u" ++ "/" ++ strToUpper "select" :=
  ⟨(permission_uppercase_invariance ⟨1, [], [], [], [], [], [], []⟩ "d" "s" "u" "select"
      false).1,
   (permission_uppercase_invariance ⟨1, [], [], [], [], [], [], []⟩ "d" "s" "u" "select"
      false).2.2.2.2.2.2.2.2.2.2.2.1⟩
